import Mathlib

/-!
# Verification of the ohhhmail orchestration core

Shallow embedding of the AUBS orchestration core of the `ohhhmail`
repository: the shared pydantic models (`src/shared/models.py`), the
configuration surface (`src/aubs/src/config.py`), the action router
(`src/aubs/src/action_router.py`), the DAG builder
(`src/aubs/src/dag_builder.py`), the orchestrator's monitoring loop
(`src/aubs/src/orchestrator.py`), and the confidence normalization of the
triage and context agents (`src/agents/triage/agent.py`,
`src/agents/context/context_agent.py`).

Python dictionaries read with `.get(key, default)` are embedded as
structures of `Option`-typed fields, with the defaults applied at the use
site exactly where the source applies them.  Floats are embedded as `ℚ`.
External effects (HTTP calls to MCP tools, to the UI-TARS review queue and
to the Dolphin engine) are embedded as environment parameters; the list of
external calls actually issued is returned alongside each result so that
"the tool is never called" is expressible.
-/

namespace OhhhMail

/-! ## Shared models (`src/shared/models.py`) -/

/-- `ExecutionStatus` enum. -/
inductive ExecutionStatus
  | pending
  | running
  | completed
  | failed
  | cancelled
deriving DecidableEq, Repr

/-- `ActionType` enum. -/
inductive ActionType
  | create_task
  | schedule_event
  | send_notification
  | human_review
deriving DecidableEq, Repr

/-- Result dictionary returned by the placeholder MCP tool calls
(`_call_todoist_mcp` / `_call_gcal_mcp` / `_call_twilio_mcp`). -/
structure ToolResult where
  id : String
  status : String
  tool : String
deriving DecidableEq, Repr

/-- The `data` dictionary of one recommendation.  Each field is read with
`.get` and a default by the dispatcher that consumes it. -/
structure RecData where
  title? : Option String := none
  description? : Option String := none
  due_date? : Option String := none
  assignee? : Option String := none
  priority? : Option String := none
  time? : Option String := none
  attendees? : Option (List String) := none
  location? : Option String := none
  recipient? : Option String := none
  message? : Option String := none
  urgency? : Option String := none
  channel? : Option String := none
deriving DecidableEq, Repr

/-- One entry of `findings["recommendations"]` as read by
`ActionRouter.route`. -/
structure Recommendation where
  action_type? : Option String := none
  data? : Option RecData := none
  confidence? : Option ℚ := none
deriving DecidableEq, Repr

/-- The `findings` dictionary of a context (synthesis) output, restricted to
the keys `ActionRouter` reads: `synthesis`, `recommendations`,
`risk_assessment`.  `risk_assessment` is carried as the string value of the
`RiskLevel` str-enum ("low" / "medium" / "high" / "critical"); a missing key
defaults to `RiskLevel.LOW`, i.e. the value "low". -/
structure Findings where
  synthesis? : Option String := none
  recommendations? : Option (List Recommendation) := none
  risk_assessment? : Option String := none
deriving DecidableEq, Repr

/-- The context agent output dictionary consumed by `ActionRouter.route`
(`context_output`): the router reads `confidence` (default `0.0`) and
`findings` (default `{}`). -/
structure ContextOutputDict where
  confidence? : Option ℚ := none
  findings? : Option Findings := none
deriving DecidableEq, Repr

/-- Kind-specific action payload, one variant per dispatcher plus the
human-review payload built by `_create_human_review_action`. -/
inductive ActionPayload
  | task (title description : String) (due_date assignee : Option String)
      (priority : String)
  | calendar (title : String) (time : Option String) (attendees : List String)
      (location : Option String)
  | notification (recipient message urgency channel : String)
  | review (reason : String) (context_output : ContextOutputDict)
      (review_url priority : String)
deriving DecidableEq, Repr

/-- `Action` pydantic model (fields relevant to the routing logic).
`confidence` carries the pydantic bound `ge=0.0, le=1.0`; construction of an
action with an out-of-range confidence raises a `ValidationError`, embedded
below by `mk_action`. -/
structure Action where
  execution_id : String
  action_type : ActionType
  payload : ActionPayload
  confidence : ℚ
  status : ExecutionStatus := ExecutionStatus.pending
  result : Option ToolResult := none
deriving DecidableEq, Repr

/-- `Execution` record fields used by the router and the DAG builder. -/
structure Execution where
  id : String := ""
  email_id : String := ""
  dag_id : String := ""
deriving DecidableEq, Repr

/-- `EmailAttachment` pydantic model. -/
structure EmailAttachment where
  filename : String := ""
  content_type : String := ""
  size : Nat := 0
  url : Option String := none
deriving DecidableEq, Repr

/-- `EmailData` pydantic model (fields used by the DAG builder). -/
structure EmailData where
  id : String := ""
  subject : String := ""
  sender : String := ""
  recipient : String := ""
  body : String := ""
  attachments : List EmailAttachment := []
deriving DecidableEq, Repr

/-- The pydantic `Field(ge=0.0, le=1.0)` bound shared by
`AgentOutput.confidence` and `Action.confidence`: an out-of-range value is
rejected with a `ValidationError`, not clamped. -/
def pydantic_unit_interval (c : ℚ) : Except String ℚ :=
  if 0 ≤ c ∧ c ≤ 1 then Except.ok c else Except.error "confidence out of range"

/-- Construction of an `Action`, including the pydantic validation of its
`confidence` field. -/
def mk_action (execution_id : String) (ty : ActionType) (payload : ActionPayload)
    (confidence : ℚ) : Except String Action :=
  (pydantic_unit_interval confidence).map fun c =>
    { execution_id := execution_id, action_type := ty, payload := payload,
      confidence := c }

/-! ## Configuration (`src/aubs/src/config.py`) -/

/-- `AgentConfig` model from `shared/models.py`. -/
structure AgentConfig where
  model : String
  timeout : Nat
  gpu : Bool := false
  fallback_allowed : Bool := true
  max_retries : Nat := 3
deriving DecidableEq, Repr

/-- `AUBSSettings`: the environment-derived configuration, with the field
defaults of `config.py`. -/
structure AUBSSettings where
  confidence_threshold : ℚ := 9/10
  max_retries : Nat := 3
  execution_timeout : Nat := 300
  triage_agent_model : String := "llama3.2:8b-instruct"
  triage_agent_timeout : Nat := 15
  triage_agent_gpu : Bool := false
  vision_agent_model : String := "gpt-4o"
  vision_agent_timeout : Nat := 30
  vision_agent_gpu : Bool := false
  deadline_agent_model : String := "llama3.2:8b-instruct"
  deadline_agent_timeout : Nat := 15
  deadline_agent_gpu : Bool := false
  task_agent_model : String := "llama3.2:8b-instruct"
  task_agent_timeout : Nat := 15
  task_agent_gpu : Bool := false
  context_agent_model : String := "claude-sonnet-4"
  context_agent_timeout : Nat := 30
  context_agent_gpu : Bool := false
  mcp_todoist_enabled : Bool := true
  mcp_gcal_enabled : Bool := true
  mcp_twilio_enabled : Bool := true
  high_risk_keywords : String := "fire,lawsuit,inspection,deadline,urgent,overdue"
deriving DecidableEq, Repr

/-- `AUBSSettings.validate_confidence`: rejects a threshold below 0.5. -/
def validate_confidence (v : ℚ) : Except String ℚ :=
  if v < 1/2 then Except.error "Confidence threshold too low, must be >= 0.5"
  else Except.ok v

/-- Python `str.lower()`, written over the character list so that it
computes by kernel reduction. -/
def lower_str (s : String) : String :=
  String.mk (s.data.map Char.toLower)

/-- Python `str.strip()` on a character list: drop whitespace from both
ends. -/
def strip_chars (l : List Char) : List Char :=
  ((l.dropWhile Char.isWhitespace).reverse.dropWhile Char.isWhitespace).reverse

/-- Python `str.strip()`. -/
def strip_str (s : String) : String :=
  String.mk (strip_chars s.data)

/-- Python `str.split(sep)` for a one-character separator, over character
lists: every maximal (possibly empty) run between separators. -/
def split_on_char (c : Char) : List Char → List (List Char)
  | [] => [[]]
  | x :: xs =>
      match split_on_char c xs with
      | [] => if x = c then [[], []] else [[x]]
      | ys :: rest => if x = c then [] :: ys :: rest else (x :: ys) :: rest

/-- `AUBSSettings.validate_keywords`: lowercases and strips the raw
comma-separated keyword string. -/
def validate_keywords (v : String) : String :=
  strip_str (lower_str v)

/-- A settings value that passed pydantic field validation: the `Field`
bounds (`confidence_threshold` in [0,1], `max_retries` in [1,10],
`execution_timeout` in [30,3600]) together with the `validate_confidence`
validator (threshold at least 0.5). -/
def ValidSettings (s : AUBSSettings) : Prop :=
  0 ≤ s.confidence_threshold ∧ s.confidence_threshold ≤ 1 ∧
  (validate_confidence s.confidence_threshold = Except.ok s.confidence_threshold) ∧
  1 ≤ s.max_retries ∧ s.max_retries ≤ 10 ∧
  30 ≤ s.execution_timeout ∧ s.execution_timeout ≤ 3600

/-- `AUBSSettings.get_high_risk_keywords`: split on commas and strip each
keyword. -/
def get_high_risk_keywords (s : AUBSSettings) : List String :=
  (split_on_char ',' s.high_risk_keywords.data).map fun l =>
    String.mk (strip_chars l)

/-- The five agent configurations returned by
`AUBSSettings.get_agent_configs` (a dictionary with fixed keys in the
source). -/
structure AgentConfigs where
  triage : AgentConfig
  vision : AgentConfig
  deadline : AgentConfig
  task : AgentConfig
  context : AgentConfig
deriving DecidableEq, Repr

/-- `AUBSSettings.get_agent_configs`. -/
def get_agent_configs (s : AUBSSettings) : AgentConfigs where
  triage :=
    { model := s.triage_agent_model, timeout := s.triage_agent_timeout,
      gpu := s.triage_agent_gpu, fallback_allowed := true,
      max_retries := s.max_retries }
  vision :=
    { model := s.vision_agent_model, timeout := s.vision_agent_timeout,
      gpu := s.vision_agent_gpu, fallback_allowed := true,
      max_retries := s.max_retries }
  deadline :=
    { model := s.deadline_agent_model, timeout := s.deadline_agent_timeout,
      gpu := s.deadline_agent_gpu, fallback_allowed := true,
      max_retries := s.max_retries }
  task :=
    { model := s.task_agent_model, timeout := s.task_agent_timeout,
      gpu := s.task_agent_gpu, fallback_allowed := true,
      max_retries := s.max_retries }
  context :=
    { model := s.context_agent_model, timeout := s.context_agent_timeout,
      gpu := s.context_agent_gpu, fallback_allowed := false,
      max_retries := s.max_retries }

/-! ## Action router (`src/aubs/src/action_router.py`) -/

/-- External calls the router can issue. -/
inductive ExtCall
  | todoist
  | gcal
  | twilio
  | review_queue
deriving DecidableEq, Repr

/-- Environment for the router's external collaborators: the fresh ids the
placeholder MCP calls return (`uuid4` in the source) and whether the HTTP
post to the UI-TARS review queue succeeds. -/
structure RouterEnv where
  todoist_uuid : String := "todoist-uuid"
  gcal_uuid : String := "gcal-uuid"
  twilio_uuid : String := "twilio-uuid"
  review_queue_ok : Bool := true
deriving DecidableEq, Repr

/-- `ActionRouter._call_todoist_mcp` (placeholder implementation: always
returns a success dictionary). -/
def call_todoist_mcp (env : RouterEnv) : ToolResult :=
  { id := env.todoist_uuid, status := "created", tool := "todoist" }

/-- `ActionRouter._call_gcal_mcp`. -/
def call_gcal_mcp (env : RouterEnv) : ToolResult :=
  { id := env.gcal_uuid, status := "created", tool := "google_calendar" }

/-- `ActionRouter._call_twilio_mcp`. -/
def call_twilio_mcp (env : RouterEnv) : ToolResult :=
  { id := env.twilio_uuid, status := "sent", tool := "twilio" }

/-- `ActionRouter._detect_high_risk`: scan the lowercased synthesis narrative
for any configured keyword (Python substring membership). -/
def detect_high_risk (high_risk_keywords : List String)
    (context_output : ContextOutputDict) : Bool :=
  let findings := context_output.findings?.getD {}
  let synthesis := lower_str (findings.synthesis?.getD "")
  high_risk_keywords.any fun keyword =>
    synthesis.data.tails.any fun t => keyword.data.isPrefixOf t

/-- `ActionRouter._create_task_action`: build the `TaskAction` (pydantic
validation of `confidence` included) and, when the Todoist tool is enabled,
call it and mark the action completed with its result.  The second component
lists the external calls issued. -/
def create_task_action (s : AUBSSettings) (env : RouterEnv) (execution : Execution)
    (data : RecData) (confidence : ℚ) : Except String (Action × List ExtCall) :=
  (mk_action execution.id ActionType.create_task
      (ActionPayload.task (data.title?.getD "New Task") (data.description?.getD "")
        data.due_date? data.assignee? (data.priority?.getD "medium"))
      confidence).map fun action =>
    if s.mcp_todoist_enabled then
      let done :=
        { action with status := ExecutionStatus.completed,
                      result := some (call_todoist_mcp env) }
      (done, [ExtCall.todoist])
    else
      (action, [])

/-- `ActionRouter._create_calendar_action`. -/
def create_calendar_action (s : AUBSSettings) (env : RouterEnv) (execution : Execution)
    (data : RecData) (confidence : ℚ) : Except String (Action × List ExtCall) :=
  (mk_action execution.id ActionType.schedule_event
      (ActionPayload.calendar (data.title?.getD "New Event") data.time?
        (data.attendees?.getD []) data.location?)
      confidence).map fun action =>
    if s.mcp_gcal_enabled then
      let done :=
        { action with status := ExecutionStatus.completed,
                      result := some (call_gcal_mcp env) }
      (done, [ExtCall.gcal])
    else
      (action, [])

/-- `ActionRouter._create_notification_action`. -/
def create_notification_action (s : AUBSSettings) (env : RouterEnv)
    (execution : Execution) (data : RecData) (confidence : ℚ) :
    Except String (Action × List ExtCall) :=
  (mk_action execution.id ActionType.send_notification
      (ActionPayload.notification (data.recipient?.getD "") (data.message?.getD "")
        (data.urgency?.getD "normal") (data.channel?.getD "sms"))
      confidence).map fun action =>
    if s.mcp_twilio_enabled then
      let done :=
        { action with status := ExecutionStatus.completed,
                      result := some (call_twilio_mcp env) }
      (done, [ExtCall.twilio])
    else
      (action, [])

/-- `ActionRouter._create_human_review_action`: the review action is created
with confidence 0.0 and status pending; the send to the UI-TARS review queue
is attempted, and a failure of that send is caught, so the action is
returned unchanged either way. -/
def create_human_review_action (execution : Execution)
    (context_output : ContextOutputDict) (reason : String) :
    Action × List ExtCall :=
  ({ execution_id := execution.id, action_type := ActionType.human_review,
     payload := ActionPayload.review reason context_output
       ("http://uitars:8080/review/" ++ execution.id) "high",
     confidence := 0, status := ExecutionStatus.pending },
   [ExtCall.review_queue])

/-- One iteration of the recommendation loop in `ActionRouter.route`: an
unknown `action_type` is logged and skipped, and an exception while creating
an action (a pydantic `ValidationError` on an out-of-range confidence) is
caught and the action is not appended. -/
def route_recommendation (s : AUBSSettings) (env : RouterEnv)
    (execution : Execution) (confidence : ℚ) (recommendation : Recommendation) :
    Option (Action × List ExtCall) :=
  let action_data := recommendation.data?.getD {}
  let action_confidence := recommendation.confidence?.getD confidence
  match recommendation.action_type? with
  | some "create_task" =>
      (create_task_action s env execution action_data action_confidence).toOption
  | some "schedule_event" =>
      (create_calendar_action s env execution action_data action_confidence).toOption
  | some "send_notification" =>
      (create_notification_action s env execution action_data action_confidence).toOption
  | _ => none

/-- `ActionRouter.route`: confidence gate, then risk gate, then the
recommendation loop.  Returns the created actions and the external calls
issued. -/
def route (s : AUBSSettings) (env : RouterEnv) (execution : Execution)
    (context_output : ContextOutputDict) : List Action × List ExtCall :=
  let findings := context_output.findings?.getD {}
  let confidence := context_output.confidence?.getD 0
  let recommendations := findings.recommendations?.getD []
  let risk_level := findings.risk_assessment?.getD "low"
  if confidence < s.confidence_threshold then
    let (review_action, calls) :=
      create_human_review_action execution context_output "Low confidence"
    ([review_action], calls)
  else
    let is_high_risk := detect_high_risk (get_high_risk_keywords s) context_output
    if is_high_risk || (risk_level == "high" || risk_level == "critical") then
      let (review_action, calls) :=
        create_human_review_action execution context_output
          ("High risk: " ++ risk_level)
      ([review_action], calls)
    else
      let results :=
        recommendations.filterMap (route_recommendation s env execution confidence)
      (results.map Prod.fst, (results.map Prod.snd).flatten)

/-- The reason string of a human-review payload (`payload["reason"]`),
`none` for the other payload kinds. -/
def action_reason (a : Action) : Option String :=
  match a.payload with
  | ActionPayload.review reason _ _ _ => some reason
  | _ => none

/-- The full context output carried by a human-review payload
(`payload["context_output"]`), `none` for the other payload kinds. -/
def action_review_context (a : Action) : Option ContextOutputDict :=
  match a.payload with
  | ActionPayload.review _ co _ _ => some co
  | _ => none

/-! ## DAG builder (`src/aubs/src/dag_builder.py`) -/

/-- One task dictionary of the Dolphin DAG definition, restricted to the
keys the builder writes.  `critical` and `no_fallback` default to `false`
because the corresponding keys are absent from every task except the
context task. -/
structure TaskNode where
  task_id : String
  agent_type : String
  depends_on : List String
  agent_url : String
  model : String
  timeout : Nat
  gpu : Bool
  max_retries : Nat
  xcom_push : Bool := true
  conditional? : Option String := none
  on_failure : String
  critical : Bool := false
  no_fallback : Bool := false
deriving DecidableEq, Repr

/-- The Dolphin DAG definition built by `EmailProcessingDAG.build`. -/
structure DagDefinition where
  dag_id : String
  max_retries : Nat
  timeout : Nat
  tasks : List TaskNode
  email_id : String
  has_attachments : Bool
deriving DecidableEq, Repr

/-- `EmailProcessingDAG._build_triage_task`. -/
def build_triage_task (s : AUBSSettings) : TaskNode :=
  let config := (get_agent_configs s).triage
  { task_id := "triage_agent", agent_type := "triage", depends_on := [],
    agent_url := "http://agents:8001/triage",
    model := config.model, timeout := config.timeout, gpu := config.gpu,
    max_retries := config.max_retries,
    on_failure := if config.fallback_allowed then "retry" else "fail" }

/-- `EmailProcessingDAG._build_vision_task`. -/
def build_vision_task (s : AUBSSettings) : TaskNode :=
  let config := (get_agent_configs s).vision
  { task_id := "vision_agent", agent_type := "vision",
    depends_on := ["triage_agent"],
    agent_url := "http://agents:8002/vision",
    model := config.model, timeout := config.timeout, gpu := config.gpu,
    max_retries := config.max_retries,
    on_failure := if config.fallback_allowed then "retry" else "fail" }

/-- `EmailProcessingDAG._build_deadline_task`. -/
def build_deadline_task (s : AUBSSettings) : TaskNode :=
  let config := (get_agent_configs s).deadline
  { task_id := "deadline_agent", agent_type := "deadline",
    depends_on := ["triage_agent"],
    agent_url := "http://agents:8003/deadline",
    model := config.model, timeout := config.timeout, gpu := config.gpu,
    max_retries := config.max_retries,
    on_failure := if config.fallback_allowed then "retry" else "fail" }

/-- `EmailProcessingDAG._build_task_categorizer_task`. -/
def build_task_categorizer_task (s : AUBSSettings) : TaskNode :=
  let config := (get_agent_configs s).task
  { task_id := "task_agent", agent_type := "task",
    depends_on := ["triage_agent"],
    agent_url := "http://agents:8004/task",
    model := config.model, timeout := config.timeout, gpu := config.gpu,
    max_retries := config.max_retries,
    conditional? :=
      some "xcom.triage_agent.findings.type in task or action_required",
    on_failure := if config.fallback_allowed then "retry" else "fail" }

/-- `EmailProcessingDAG._build_context_task`: depends on every upstream
agent, `on_failure` is unconditionally "fail", the task is marked critical
and no-fallback, and its `config.max_retries` comes from the context
`AgentConfig` (which carries the global `max_retries`). -/
def build_context_task (s : AUBSSettings) (has_vision : Bool) : TaskNode :=
  let config := (get_agent_configs s).context
  let dependencies :=
    ["triage_agent", "deadline_agent", "task_agent"] ++
      (if has_vision then ["vision_agent"] else [])
  { task_id := "context_agent", agent_type := "context",
    depends_on := dependencies,
    agent_url := "http://agents:8005/context",
    model := config.model, timeout := config.timeout, gpu := config.gpu,
    max_retries := config.max_retries,
    on_failure := "fail", critical := true, no_fallback := true }

/-- `EmailProcessingDAG.build`: triage always first, vision included exactly
when the email has attachments, then deadline, task categorizer, and the
context task last. -/
def build (s : AUBSSettings) (email : EmailData) (execution : Execution) :
    DagDefinition :=
  let has_attachments := 0 < email.attachments.length
  let tasks :=
    [build_triage_task s] ++
      (if has_attachments then [build_vision_task s] else []) ++
      [build_deadline_task s, build_task_categorizer_task s,
        build_context_task s has_attachments]
  { dag_id := execution.dag_id, max_retries := s.max_retries,
    timeout := s.execution_timeout, tasks := tasks,
    email_id := email.id,
    has_attachments := decide (0 < email.attachments.length) }

/-- The context task of a built DAG definition. -/
def context_task_of (d : DagDefinition) : Option TaskNode :=
  d.tasks.find? fun t => t.task_id == "context_agent"

/-! ## Orchestrator (`src/aubs/src/orchestrator.py`)

The monitoring loop polls Dolphin every `poll_interval = 5` seconds and, at
the top of each iteration, force-fails the execution once the elapsed
wall-clock time exceeds `settings.execution_timeout`.  The elapsed time at
iteration `i` is embedded as `i * 5` (the sleep dominates each iteration).
The loop is written with the remaining number of in-budget iterations as
explicit fuel: at iteration `i` the source's timeout test `i * 5 >
execution_timeout` holds exactly when `i > execution_timeout / 5`, so
starting with fuel `execution_timeout / 5 + 1` makes fuel exhaustion
coincide exactly with the source's timeout branch. -/

/-- The status response of one poll of the Dolphin engine, restricted to
the keys the monitor reads (`status`, `error`, and
`task_results["context_agent"]`). -/
structure StatusData where
  status? : Option String := none
  error? : Option String := none
  context_result? : Option ContextOutputDict := none
deriving DecidableEq, Repr

/-- The outcome of one poll: a response from Dolphin, or an exception while
talking to it (logged and swallowed; the loop continues). -/
inductive PollOutcome
  | response (sd : StatusData)
  | failure
deriving DecidableEq, Repr

/-- The mutable fields of an `Execution` written by the orchestrator. -/
structure ExecState where
  status : ExecutionStatus := ExecutionStatus.pending
  error_message : Option String := none
  completed_at_set : Bool := false
  actions : List Action := []
deriving DecidableEq, Repr

/-- Result of monitoring: the final execution state, whether the Decision
Router (`_route_actions` via `_process_completion`) was invoked, and the
ordered list of status values written. -/
structure MonitorResult where
  exec : ExecState
  router_invoked : Bool
  trace : List ExecutionStatus
deriving DecidableEq, Repr

/-- `AUBSOrchestrator._process_completion`: route actions from the context
agent output when present (and truthy), append them, then mark the
execution completed. -/
def process_completion (s : AUBSSettings) (renv : RouterEnv) (e : Execution)
    (ex : ExecState) (sd : StatusData) : ExecState × Bool :=
  match sd.context_result? with
  | some co =>
      let actions := (route s renv e co).1
      ({ ex with actions := ex.actions ++ actions,
                 status := ExecutionStatus.completed,
                 completed_at_set := true }, true)
  | none =>
      ({ ex with status := ExecutionStatus.completed,
                 completed_at_set := true }, false)

/-- The timeout branch of the monitoring loop: force the execution to
failed with error "Execution timeout". -/
def monitor_timeout_state (ex : ExecState) : ExecState :=
  { ex with status := ExecutionStatus.failed,
            error_message := some "Execution timeout",
            completed_at_set := true }

/-- The monitoring loop of `AUBSOrchestrator._monitor_execution`.  `polls i`
is the outcome of the poll at iteration `i`; `fuel` counts the iterations
whose timeout test `i * 5 > execution_timeout` still fails (see the section
comment), so `fuel = 0` is exactly the source's timeout branch. -/
def monitor_loop (s : AUBSSettings) (renv : RouterEnv) (e : Execution)
    (polls : Nat → PollOutcome) (ex : ExecState) (i : Nat) :
    Nat → MonitorResult
  | 0 =>
      { exec := monitor_timeout_state ex, router_invoked := false,
        trace := [ExecutionStatus.failed] }
  | fuel + 1 =>
      match polls i with
      | PollOutcome.failure => monitor_loop s renv e polls ex (i + 1) fuel
      | PollOutcome.response sd =>
          if sd.status? = some "completed" then
            let (ex2, invoked) := process_completion s renv e ex sd
            { exec := ex2, router_invoked := invoked,
              trace := [ExecutionStatus.completed] }
          else if sd.status? = some "failed" then
            let ex2 :=
              { ex with status := ExecutionStatus.failed,
                        error_message := some (sd.error?.getD "Unknown error"),
                        completed_at_set := true }
            { exec := ex2, router_invoked := false,
              trace := [ExecutionStatus.failed] }
          else
            monitor_loop s renv e polls ex (i + 1) fuel

/-- `AUBSOrchestrator._monitor_execution`. -/
def monitor_execution (s : AUBSSettings) (renv : RouterEnv) (e : Execution)
    (polls : Nat → PollOutcome) (ex : ExecState) : MonitorResult :=
  monitor_loop s renv e polls ex 0 (s.execution_timeout / 5 + 1)

/-- Environment of one `process_email` run: whether `_build_dag` raises,
the result of `_submit_dag` (Dolphin execution id, or the raised submission
error), the poll outcomes, and the router environment. -/
structure OrchEnv where
  exec_uuid : String := "exec-uuid"
  build_error? : Option String := none
  submit_result : Except String String := Except.ok "dolphin-exec-1"
  polls : Nat → PollOutcome := fun _ => PollOutcome.failure
  router : RouterEnv := {}

/-- `AUBSOrchestrator.process_email`, composed with the background
`_monitor_execution` task it spawns: create the execution as pending; on a
DAG build or submission failure mark it failed and do not monitor;
otherwise mark it running and monitor to a terminal state.  The returned
trace is the ordered sequence of status values the execution takes on. -/
def process_email (s : AUBSSettings) (oenv : OrchEnv) (email : EmailData) :
    MonitorResult :=
  let e : Execution :=
    { id := oenv.exec_uuid, email_id := email.id,
      dag_id := "email_" ++ email.id }
  let ex : ExecState := { status := ExecutionStatus.pending }
  match oenv.build_error? with
  | some msg =>
      let ex2 :=
        { ex with status := ExecutionStatus.failed,
                  error_message := some ("DAG build failed: " ++ msg),
                  completed_at_set := true }
      { exec := ex2, router_invoked := false,
        trace := [ExecutionStatus.pending, ExecutionStatus.failed] }
  | none =>
      match oenv.submit_result with
      | Except.error msg =>
          let ex2 :=
            { ex with status := ExecutionStatus.failed,
                      error_message := some ("DAG submission failed: " ++ msg),
                      completed_at_set := true }
          { exec := ex2, router_invoked := false,
            trace := [ExecutionStatus.pending, ExecutionStatus.failed] }
      | Except.ok _dolphin_id =>
          let ex2 := { ex with status := ExecutionStatus.running }
          let m := monitor_execution s oenv.router e oenv.polls ex2
          { m with trace :=
              [ExecutionStatus.pending, ExecutionStatus.running] ++ m.trace }

/-- A Dolphin poll outcome reporting a terminal status. -/
def terminal_report : PollOutcome → Bool
  | PollOutcome.response sd =>
      sd.status? == some "completed" || sd.status? == some "failed"
  | PollOutcome.failure => false

/-- The forward order on execution statuses:
`pending < running < {completed, failed, cancelled}`. -/
def statusRank : ExecutionStatus → Nat
  | ExecutionStatus.pending => 0
  | ExecutionStatus.running => 1
  | _ => 2

/-- `a` precedes (or equals) `b` in the forward status order. -/
def statusLE (a b : ExecutionStatus) : Prop :=
  statusRank a ≤ statusRank b

/-! ## Stage-output normalization (`src/agents/triage/agent.py`,
`src/agents/context/context_agent.py`)

`TriageAgent._normalize_findings` reads the raw LLM confidence with
`result.get("confidence", 0.8)`, converts it with `float(...)` (falling
back to 0.8 on a conversion error) and clamps it with
`max(0.0, min(1.0, confidence))`.  `ContextAgent.process` reads
`context_data.get("confidence", 0.8)` and passes the raw value straight to
the `ContextOutput` pydantic constructor, whose
`confidence: float = Field(ge=0.0, le=1.0)` bound rejects an out-of-range
value instead of clamping it. -/

/-- A raw confidence value as read from an LLM result dictionary: absent,
present but not convertible by `float(...)`, or numeric. -/
inductive RawConfidence
  | missing
  | non_numeric
  | num (q : ℚ)
deriving DecidableEq, Repr

/-- A raw urgency value as read from an LLM result dictionary: absent,
present but not convertible by `int(...)`, or an integer. -/
inductive RawUrgency
  | missing
  | non_int
  | int (n : ℤ)
deriving DecidableEq, Repr

/-- The raw triage LLM result dictionary, restricted to the keys
`_normalize_findings` reads. -/
structure TriageRawResult where
  category? : Option String := none
  urgency : RawUrgency := RawUrgency.missing
  requires_vision : Bool := false
  has_deadline : Bool := false
  type? : Option String := none
  reasoning? : Option String := none
  confidence : RawConfidence := RawConfidence.missing
deriving DecidableEq, Repr

/-- The normalized triage findings dictionary: every key, including
`confidence`, is always present. -/
structure TriageFindings where
  category : String
  urgency : ℤ
  type : String
  requires_vision : Bool
  has_deadline : Bool
  reasoning : String
  confidence : ℚ
deriving DecidableEq, Repr

/-- `TriageAgent._normalize_findings`. -/
def normalize_findings (result : TriageRawResult) : TriageFindings :=
  let category0 := lower_str (result.category?.getD "system")
  let category :=
    if ["vendor", "staff", "customer", "system"].contains category0 then
      category0
    else "system"
  let urgency : ℤ :=
    match result.urgency with
    | RawUrgency.missing => 50
    | RawUrgency.non_int => 50
    | RawUrgency.int n => max 0 (min 100 n)
  let confidence : ℚ :=
    match result.confidence with
    | RawConfidence.missing => 4/5
    | RawConfidence.non_numeric => 4/5
    | RawConfidence.num q => max 0 (min 1 q)
  { category := category, urgency := urgency,
    type := result.type?.getD "general",
    requires_vision := result.requires_vision,
    has_deadline := result.has_deadline,
    reasoning := result.reasoning?.getD "",
    confidence := confidence }

/-- The parsed context LLM result dictionary, restricted to the key the
confidence flow of `ContextAgent.process` reads. -/
structure ContextData where
  confidence? : Option ℚ := none
deriving DecidableEq, Repr

/-- The `confidence = context_data.get("confidence", 0.8)` step of
`ContextAgent.process`: no clamping. -/
def context_agent_confidence (d : ContextData) : ℚ :=
  d.confidence?.getD (4/5)

/-- The confidence of the `ContextOutput(confidence=confidence, ...)`
record built at the end of `ContextAgent.process`: the raw value goes
through the pydantic `[0,1]` bound, which rejects rather than clamps. -/
def context_process_confidence (d : ContextData) : Except String ℚ :=
  pydantic_unit_interval (context_agent_confidence d)

/-- Whether a recommendation's `action_type` is one of the three the
router dispatches (`create_task`, `schedule_event`, `send_notification`). -/
def known_action_type (rec : Recommendation) : Bool :=
  rec.action_type? == some "create_task" ||
    rec.action_type? == some "schedule_event" ||
    rec.action_type? == some "send_notification"

/-- Outcome shape 1 of `route`: a single low-confidence human-review
action. -/
def low_confidence_outcome (l : List Action) : Prop :=
  l.map action_reason = [some "Low confidence"]

/-- Outcome shape 2 of `route`: a single high-risk human-review action. -/
def high_risk_outcome (l : List Action) : Prop :=
  ∃ lvl, l.map action_reason = [some ("High risk: " ++ lvl)]

/-- Outcome shape 3 of `route`: only recommendation-derived actions, no
human review at all. -/
def recommendation_outcome (l : List Action) : Prop :=
  ∀ a ∈ l, action_reason a = none ∧ a.action_type ≠ ActionType.human_review

/-! ## Router lemmas -/

/-- Confidence gate: below the threshold, `route` returns exactly the one
low-confidence human-review action. -/
theorem route_low_confidence (s : AUBSSettings) (env : RouterEnv)
    (e : Execution) (co : ContextOutputDict)
    (h : co.confidence?.getD 0 < s.confidence_threshold) :
    route s env e co =
      ([(create_human_review_action e co "Low confidence").1],
        [ExtCall.review_queue]) := by
  simp only [route]
  rw [if_pos h]
  rfl

/-- Risk gate: when the confidence gate passes and either the keyword scan
fires or the risk level is "high" or "critical", `route` returns exactly
the one high-risk human-review action. -/
theorem route_high_risk (s : AUBSSettings) (env : RouterEnv)
    (e : Execution) (co : ContextOutputDict)
    (hconf : ¬ co.confidence?.getD 0 < s.confidence_threshold)
    (hrisk : detect_high_risk (get_high_risk_keywords s) co = true ∨
      (co.findings?.getD {}).risk_assessment?.getD "low" = "high" ∨
      (co.findings?.getD {}).risk_assessment?.getD "low" = "critical") :
    route s env e co =
      ([(create_human_review_action e co
          ("High risk: " ++ (co.findings?.getD {}).risk_assessment?.getD "low")).1],
        [ExtCall.review_queue]) := by
  simp only [route]
  rw [if_neg hconf]
  rcases hrisk with h | h | h <;> simp [h, create_human_review_action]

/-- Normal routing: when both gates pass, `route` is the recommendation
loop. -/
theorem route_normal (s : AUBSSettings) (env : RouterEnv)
    (e : Execution) (co : ContextOutputDict)
    (hconf : ¬ co.confidence?.getD 0 < s.confidence_threshold)
    (hkw : detect_high_risk (get_high_risk_keywords s) co = false)
    (hhigh : (co.findings?.getD {}).risk_assessment?.getD "low" ≠ "high")
    (hcrit : (co.findings?.getD {}).risk_assessment?.getD "low" ≠ "critical") :
    route s env e co =
      (let results :=
        ((co.findings?.getD {}).recommendations?.getD []).filterMap
          (route_recommendation s env e (co.confidence?.getD 0))
      (results.map Prod.fst, (results.map Prod.snd).flatten)) := by
  simp only [route]
  rw [if_neg hconf]
  simp [hkw, hhigh, hcrit]

/-- A task dispatcher success produces a `create_task` action, never a
review payload. -/
theorem create_task_action_shape (s : AUBSSettings) (env : RouterEnv)
    (e : Execution) (d : RecData) (c : ℚ) (p : Action × List ExtCall)
    (h : create_task_action s env e d c = Except.ok p) :
    p.1.action_type = ActionType.create_task ∧ action_reason p.1 = none := by
  by_cases hc : 0 ≤ c ∧ c ≤ 1
  · simp only [create_task_action, mk_action, pydantic_unit_interval, if_pos hc,
      Except.map] at h
    split at h <;> · cases h; exact ⟨rfl, rfl⟩
  · simp [create_task_action, mk_action, pydantic_unit_interval, if_neg hc,
      Except.map] at h

/-- A calendar dispatcher success produces a `schedule_event` action. -/
theorem create_calendar_action_shape (s : AUBSSettings) (env : RouterEnv)
    (e : Execution) (d : RecData) (c : ℚ) (p : Action × List ExtCall)
    (h : create_calendar_action s env e d c = Except.ok p) :
    p.1.action_type = ActionType.schedule_event ∧ action_reason p.1 = none := by
  by_cases hc : 0 ≤ c ∧ c ≤ 1
  · simp only [create_calendar_action, mk_action, pydantic_unit_interval,
      if_pos hc, Except.map] at h
    split at h <;> · cases h; exact ⟨rfl, rfl⟩
  · simp [create_calendar_action, mk_action, pydantic_unit_interval, if_neg hc,
      Except.map] at h

/-- A notification dispatcher success produces a `send_notification`
action. -/
theorem create_notification_action_shape (s : AUBSSettings) (env : RouterEnv)
    (e : Execution) (d : RecData) (c : ℚ) (p : Action × List ExtCall)
    (h : create_notification_action s env e d c = Except.ok p) :
    p.1.action_type = ActionType.send_notification ∧ action_reason p.1 = none := by
  by_cases hc : 0 ≤ c ∧ c ≤ 1
  · simp only [create_notification_action, mk_action, pydantic_unit_interval,
      if_pos hc, Except.map] at h
    split at h <;> · cases h; exact ⟨rfl, rfl⟩
  · simp [create_notification_action, mk_action, pydantic_unit_interval,
      if_neg hc, Except.map] at h

/-- Every action produced by the recommendation loop is task-, calendar- or
notification-typed, and never carries a review payload. -/
theorem route_recommendation_shape (s : AUBSSettings) (env : RouterEnv)
    (e : Execution) (conf : ℚ) (rec : Recommendation)
    (p : Action × List ExtCall)
    (h : route_recommendation s env e conf rec = some p) :
    (p.1.action_type = ActionType.create_task ∨
      p.1.action_type = ActionType.schedule_event ∨
      p.1.action_type = ActionType.send_notification) ∧
    action_reason p.1 = none := by
  unfold route_recommendation at h
  split at h
  · rcases hx : create_task_action s env e (rec.data?.getD {})
        (rec.confidence?.getD conf) with m | v
    · simp only [hx, Except.toOption] at h
      exact Option.noConfusion h
    · simp only [hx, Except.toOption, Option.some.injEq] at h
      subst h
      have hs := create_task_action_shape s env e _ _ v hx
      exact ⟨Or.inl hs.1, hs.2⟩
  · rcases hx : create_calendar_action s env e (rec.data?.getD {})
        (rec.confidence?.getD conf) with m | v
    · simp only [hx, Except.toOption] at h
      exact Option.noConfusion h
    · simp only [hx, Except.toOption, Option.some.injEq] at h
      subst h
      have hs := create_calendar_action_shape s env e _ _ v hx
      exact ⟨Or.inr (Or.inl hs.1), hs.2⟩
  · rcases hx : create_notification_action s env e (rec.data?.getD {})
        (rec.confidence?.getD conf) with m | v
    · simp only [hx, Except.toOption] at h
      exact Option.noConfusion h
    · simp only [hx, Except.toOption, Option.some.injEq] at h
      subst h
      have hs := create_notification_action_shape s env e _ _ v hx
      exact ⟨Or.inr (Or.inr hs.1), hs.2⟩
  · cases h

/-- A singleton reason image determines a singleton action list. -/
theorem map_reason_singleton {l : List Action} {x : String}
    (h : l.map action_reason = [some x]) :
    ∃ a, l = [a] ∧ action_reason a = some x := by
  match l with
  | [] => cases h
  | a :: t =>
      injection h with h1 h2
      cases List.map_eq_nil_iff.mp h2
      exact ⟨a, rfl, h1⟩

/-- The low-confidence reason string is never a high-risk reason string. -/
theorem low_reason_ne_high (lvl : String) :
    "Low confidence" ≠ "High risk: " ++ lvl := by
  intro h
  have hd := congrArg (fun t : String => t.data.head?) h
  dsimp only at hd
  rw [String.data_append] at hd
  have e1 : "High risk: ".data = 'H' :: "igh risk: ".data := rfl
  rw [e1, List.cons_append] at hd
  have e2 : "Low confidence".data.head? = some 'L' := rfl
  rw [e2, List.head?_cons] at hd
  injection hd with hd
  exact absurd hd (by decide)

/-- The three routing outcomes are mutually exclusive and exactly one
occurs on every call: the ordered gates of `route` produce either the
single low-confidence review, or the single high-risk review, or only
recommendation-derived actions. -/
theorem route_outcomes (s : AUBSSettings) (env : RouterEnv) (e : Execution)
    (co : ContextOutputDict) :
    (low_confidence_outcome (route s env e co).1 ∧
      ¬ high_risk_outcome (route s env e co).1 ∧
      ¬ recommendation_outcome (route s env e co).1) ∨
    (¬ low_confidence_outcome (route s env e co).1 ∧
      high_risk_outcome (route s env e co).1 ∧
      ¬ recommendation_outcome (route s env e co).1) ∨
    (¬ low_confidence_outcome (route s env e co).1 ∧
      ¬ high_risk_outcome (route s env e co).1 ∧
      recommendation_outcome (route s env e co).1) := by
  by_cases hconf : co.confidence?.getD 0 < s.confidence_threshold
  · left
    rw [route_low_confidence s env e co hconf]
    refine ⟨rfl, ?_, ?_⟩
    · rintro ⟨lvl, hl⟩
      simp only [List.map_cons, List.map_nil] at hl
      injection hl with h1 _
      rw [show action_reason (create_human_review_action e co "Low confidence").1
            = some "Low confidence" from rfl] at h1
      injection h1 with h2
      exact low_reason_ne_high lvl h2
    · intro hrec
      have h4 := (hrec _ (List.mem_singleton.mpr rfl)).1
      rw [show action_reason (create_human_review_action e co "Low confidence").1
            = some "Low confidence" from rfl] at h4
      exact Option.noConfusion h4
  · by_cases hgate : detect_high_risk (get_high_risk_keywords s) co = true ∨
        (co.findings?.getD {}).risk_assessment?.getD "low" = "high" ∨
        (co.findings?.getD {}).risk_assessment?.getD "low" = "critical"
    · right; left
      rw [route_high_risk s env e co hconf hgate]
      refine ⟨?_, ⟨(co.findings?.getD {}).risk_assessment?.getD "low", rfl⟩, ?_⟩
      · intro hlow
        simp only [low_confidence_outcome, List.map_cons, List.map_nil] at hlow
        injection hlow with h1 _
        rw [show action_reason (create_human_review_action e co
              ("High risk: " ++ (co.findings?.getD {}).risk_assessment?.getD "low")).1
            = some ("High risk: " ++
                (co.findings?.getD {}).risk_assessment?.getD "low") from rfl] at h1
        injection h1 with h2
        exact low_reason_ne_high _ h2.symm
      · intro hrec
        have h4 := (hrec _ (List.mem_singleton.mpr rfl)).1
        rw [show action_reason (create_human_review_action e co
              ("High risk: " ++ (co.findings?.getD {}).risk_assessment?.getD "low")).1
            = some ("High risk: " ++
                (co.findings?.getD {}).risk_assessment?.getD "low") from rfl] at h4
        exact Option.noConfusion h4
    · right; right
      push_neg at hgate
      obtain ⟨hkw, hhigh, hcrit⟩ := hgate
      have hkw' : detect_high_risk (get_high_risk_keywords s) co = false :=
        Bool.eq_false_iff.mpr hkw
      rw [route_normal s env e co hconf hkw' hhigh hcrit]
      dsimp only
      have hrec : recommendation_outcome
          ((((co.findings?.getD {}).recommendations?.getD []).filterMap
              (route_recommendation s env e (co.confidence?.getD 0))).map
            Prod.fst) := by
        intro a ha
        rw [List.mem_map] at ha
        obtain ⟨p, hp, rfl⟩ := ha
        rw [List.mem_filterMap] at hp
        obtain ⟨rec, _, hsome⟩ := hp
        have hs := route_recommendation_shape s env e _ rec p hsome
        refine ⟨hs.2, ?_⟩
        rcases hs.1 with ht | ht | ht <;> · rw [ht]; decide
      refine ⟨?_, ?_, hrec⟩
      · intro hlow
        obtain ⟨a, hla, hra⟩ := map_reason_singleton hlow
        have h5 := (hrec a (hla ▸ List.mem_singleton.mpr rfl)).1
        rw [h5] at hra
        exact Option.noConfusion hra
      · rintro ⟨lvl, hl⟩
        obtain ⟨a, hla, hra⟩ := map_reason_singleton hl
        have h5 := (hrec a (hla ▸ List.mem_singleton.mpr rfl)).1
        rw [h5] at hra
        exact Option.noConfusion hra

/-! ## C1 -/

/-- C1 (counterexample): at confidence 0.4 with the default threshold 0.9,
`route` produces exactly one human-review action carrying the full
synthesis output, but its reason string is "Low confidence" (capital L),
not "low confidence" as the claim states. -/
theorem c1_reason_capitalization_counterexample :
    (route {} {} { id := "e1" } { confidence? := some (2/5) }).1.map action_reason
        = [some "Low confidence"] ∧
      (some "Low confidence" : Option String) ≠ some "low confidence" := by
  have hr := route_low_confidence {} {} { id := "e1" }
    { confidence? := some (2/5) } (by norm_num)
  refine ⟨?_, by decide⟩
  rw [hr]
  rfl

/-- C1 (amended): for every execution and synthesis output whose confidence
(defaulted to 0 when missing) is strictly below the configured threshold,
`route` returns exactly one action; it is the human-review action built by
`_create_human_review_action` with reason "Low confidence" (capitalized in
the source), it carries the full synthesis output, and no risk or
recommendation evaluation contributes any further action, the only external
call being the review-queue post. -/
theorem c1_low_confidence_gate (s : AUBSSettings) (env : RouterEnv)
    (e : Execution) (co : ContextOutputDict)
    (h : co.confidence?.getD 0 < s.confidence_threshold) :
    route s env e co =
      ([(create_human_review_action e co "Low confidence").1],
        [ExtCall.review_queue]) ∧
    (route s env e co).1.map action_reason = [some "Low confidence"] ∧
    (route s env e co).1.map action_review_context = [some co] ∧
    (route s env e co).1.map Action.action_type = [ActionType.human_review] := by
  have hr := route_low_confidence s env e co h
  refine ⟨hr, ?_, ?_, ?_⟩ <;> rw [hr] <;> rfl

/-- C1 (witness). -/
theorem c1_low_confidence_gate_witness :
    (route {} {} { id := "w1" } { confidence? := some (1/4) }).1.map
        Action.action_type = [ActionType.human_review] :=
  (c1_low_confidence_gate {} {} { id := "w1" } { confidence? := some (1/4) }
    (by norm_num)).2.2.2

/-! ## C2 -/

/-- C2 (counterexample): at confidence 1 with risk "critical" and two
recommendations, `route` produces exactly one human-review action, but its
reason string is "High risk: critical" (capital H), not
"high risk: critical" as the claim states. -/
theorem c2_reason_capitalization_counterexample :
    (route {} {} { id := "e2" }
        { confidence? := some 1,
          findings? := some { risk_assessment? := some "critical", recommendations? := some [{ action_type? := some "create_task" }, { action_type? := some "schedule_event" }] } }).1.map
        action_reason = [some "High risk: critical"] ∧
      (some "High risk: critical" : Option String) ≠ some "high risk: critical" := by
  have hr := route_high_risk {} {} { id := "e2" }
    { confidence? := some 1,
      findings? := some { risk_assessment? := some "critical", recommendations? := some [{ action_type? := some "create_task" }, { action_type? := some "schedule_event" }] } }
    (by norm_num) (Or.inr (Or.inr rfl))
  refine ⟨?_, by decide⟩
  rw [hr]
  rfl

/-- C2 (amended): when the confidence gate passes and the risk level is
"high" or "critical" or a configured keyword occurs in the synthesis
narrative, `route` returns exactly one human-review action whose reason is
"High risk: <level>" (capitalized in the source) and zero
task/calendar/notification actions; and on every call exactly one of the
three outcomes — low-confidence review, high-risk review,
recommendation-derived actions — is produced. -/
theorem c2_risk_gate_and_exclusivity (s : AUBSSettings) (env : RouterEnv)
    (e : Execution) (co : ContextOutputDict) :
    (¬ co.confidence?.getD 0 < s.confidence_threshold →
      (detect_high_risk (get_high_risk_keywords s) co = true ∨
        (co.findings?.getD {}).risk_assessment?.getD "low" = "high" ∨
        (co.findings?.getD {}).risk_assessment?.getD "low" = "critical") →
      route s env e co =
        ([(create_human_review_action e co
            ("High risk: " ++ (co.findings?.getD {}).risk_assessment?.getD "low")).1],
          [ExtCall.review_queue]) ∧
      (route s env e co).1.map Action.action_type = [ActionType.human_review]) ∧
    ((low_confidence_outcome (route s env e co).1 ∧
        ¬ high_risk_outcome (route s env e co).1 ∧
        ¬ recommendation_outcome (route s env e co).1) ∨
      (¬ low_confidence_outcome (route s env e co).1 ∧
        high_risk_outcome (route s env e co).1 ∧
        ¬ recommendation_outcome (route s env e co).1) ∨
      (¬ low_confidence_outcome (route s env e co).1 ∧
        ¬ high_risk_outcome (route s env e co).1 ∧
        recommendation_outcome (route s env e co).1)) := by
  refine ⟨fun hconf hrisk => ?_, route_outcomes s env e co⟩
  have hr := route_high_risk s env e co hconf hrisk
  exact ⟨hr, by rw [hr]; rfl⟩

/-- C2 (witness). -/
theorem c2_risk_gate_witness :
    (route {} {} { id := "w2" }
        { confidence? := some 1,
          findings? := some { risk_assessment? := some "high", recommendations? := some [{ action_type? := some "create_task" }] } }).1.map
        Action.action_type = [ActionType.human_review] :=
  ((c2_risk_gate_and_exclusivity {} {} { id := "w2" }
      { confidence? := some 1,
        findings? := some { risk_assessment? := some "high", recommendations? := some [{ action_type? := some "create_task" }] } }).1
    (by norm_num) (Or.inr (Or.inl rfl))).2

/-- `filterMap` length through a pointwise `isSome` characterization. -/
theorem length_filterMap_eq {α β : Type} (f : α → Option β) (p : α → Bool)
    (l : List α) (h : ∀ a ∈ l, (f a).isSome = p a) :
    (l.filterMap f).length = (l.filter p).length := by
  induction l with
  | nil => rfl
  | cons a t ih =>
      have ha := h a (List.mem_cons_self a t)
      have ht := ih fun x hx => h x (List.mem_cons_of_mem a hx)
      cases hf : f a <;> rw [hf] at ha <;>
        simp [List.filterMap_cons, List.filter_cons, hf, ← ha, ht]

/-- A dispatcher with a valid confidence succeeds. -/
theorem create_task_action_isOk (s : AUBSSettings) (env : RouterEnv)
    (e : Execution) (d : RecData) (c : ℚ) (hv : 0 ≤ c ∧ c ≤ 1) :
    (create_task_action s env e d c).toOption.isSome = true := by
  simp [create_task_action, mk_action, pydantic_unit_interval, hv, Except.map,
    Except.toOption]

/-- The calendar dispatcher with a valid confidence succeeds. -/
theorem create_calendar_action_isOk (s : AUBSSettings) (env : RouterEnv)
    (e : Execution) (d : RecData) (c : ℚ) (hv : 0 ≤ c ∧ c ≤ 1) :
    (create_calendar_action s env e d c).toOption.isSome = true := by
  simp [create_calendar_action, mk_action, pydantic_unit_interval, hv, Except.map,
    Except.toOption]

/-- The notification dispatcher with a valid confidence succeeds. -/
theorem create_notification_action_isOk (s : AUBSSettings) (env : RouterEnv)
    (e : Execution) (d : RecData) (c : ℚ) (hv : 0 ≤ c ∧ c ≤ 1) :
    (create_notification_action s env e d c).toOption.isSome = true := by
  simp [create_notification_action, mk_action, pydantic_unit_interval, hv,
    Except.map, Except.toOption]

/-- One loop iteration contributes an action exactly when the
recommendation's `action_type` is known (given a valid effective
confidence); in particular an unknown `action_type` is skipped. -/
theorem route_recommendation_isSome (s : AUBSSettings) (env : RouterEnv)
    (e : Execution) (conf : ℚ) (rec : Recommendation)
    (hv : 0 ≤ rec.confidence?.getD conf ∧ rec.confidence?.getD conf ≤ 1) :
    (route_recommendation s env e conf rec).isSome = known_action_type rec := by
  unfold route_recommendation known_action_type
  split
  · rename_i heq
    rw [heq]
    simp [create_task_action_isOk s env e _ _ hv]
  · rename_i heq
    rw [heq]
    simp [create_calendar_action_isOk s env e _ _ hv]
  · rename_i heq
    rw [heq]
    simp [create_notification_action_isOk s env e _ _ hv]
  · rename_i h1 h2 h3
    simp only [Option.isSome_none]
    cases hat : rec.action_type? with
    | none => rfl
    | some v =>
        rw [hat] at h1 h2 h3
        have n1 : ¬ v = "create_task" := fun hv' => h1 (by rw [hv'])
        have n2 : ¬ v = "schedule_event" := fun hv' => h2 (by rw [hv'])
        have n3 : ¬ v = "send_notification" := fun hv' => h3 (by rw [hv'])
        simp [n1, n2, n3]

/-! ## C6 -/

/-- C6: when both gates pass, a recommendation with an unknown
`action_type` is skipped without aborting the batch: the number of routed
actions equals the number of recommendations whose `action_type` is known
(given recommendations whose effective confidences pass the `Action`
model's validation), and an unknown-typed recommendation contributes
nothing wherever it sits in the list. -/
theorem c6_unknown_action_type_skipped (s : AUBSSettings) (env : RouterEnv)
    (e : Execution) (co : ContextOutputDict)
    (hconf : ¬ co.confidence?.getD 0 < s.confidence_threshold)
    (hkw : detect_high_risk (get_high_risk_keywords s) co = false)
    (hhigh : (co.findings?.getD {}).risk_assessment?.getD "low" ≠ "high")
    (hcrit : (co.findings?.getD {}).risk_assessment?.getD "low" ≠ "critical")
    (hvalid : ∀ rec ∈ (co.findings?.getD {}).recommendations?.getD [],
      0 ≤ rec.confidence?.getD (co.confidence?.getD 0) ∧
        rec.confidence?.getD (co.confidence?.getD 0) ≤ 1) :
    (route s env e co).1.length =
      (((co.findings?.getD {}).recommendations?.getD []).filter
        known_action_type).length ∧
    ∀ rec ∈ (co.findings?.getD {}).recommendations?.getD [],
      known_action_type rec = false →
      route_recommendation s env e (co.confidence?.getD 0) rec = none := by
  constructor
  · rw [route_normal s env e co hconf hkw hhigh hcrit]
    dsimp only
    rw [List.length_map]
    exact length_filterMap_eq _ _ _ fun rec hrec =>
      route_recommendation_isSome s env e _ rec (hvalid rec hrec)
  · intro rec hrec hunk
    have hi := route_recommendation_isSome s env e (co.confidence?.getD 0) rec
      (hvalid rec hrec)
    rw [hunk] at hi
    exact Option.not_isSome_iff_eq_none.mp (by rw [hi]; decide)

/-- C6 (witness): one unknown `action_type` among three recommendations
yields exactly 2 actions. -/
theorem c6_unknown_action_type_witness :
    (route {} {} { id := "w6" }
        { confidence? := some 1,
          findings? := some { recommendations? := some [{ action_type? := some "create_task", confidence? := some 1 }, { action_type? := some "frobnicate", confidence? := some 1 }, { action_type? := some "schedule_event", confidence? := some 1 }] } }).1.length
      = 2 := by
  have h := (c6_unknown_action_type_skipped {} {} { id := "w6" }
    { confidence? := some 1,
      findings? := some { recommendations? := some [{ action_type? := some "create_task", confidence? := some 1 }, { action_type? := some "frobnicate", confidence? := some 1 }, { action_type? := some "schedule_event", confidence? := some 1 }] } }
    (by norm_num) (by decide) (by decide) (by decide)
    (by intro rec hrec; fin_cases hrec <;> exact ⟨by norm_num, by norm_num⟩)).1
  rw [h]
  decide

/-- Status, result and external calls of a successful task dispatch, as a
function of the Todoist enable flag. -/
theorem create_task_action_fields (s : AUBSSettings) (env : RouterEnv)
    (e : Execution) (d : RecData) (c : ℚ) (p : Action × List ExtCall)
    (h : create_task_action s env e d c = Except.ok p) :
    p.1.status =
        (if s.mcp_todoist_enabled then ExecutionStatus.completed
          else ExecutionStatus.pending) ∧
    p.1.result =
        (if s.mcp_todoist_enabled then some (call_todoist_mcp env) else none) ∧
    p.2 = (if s.mcp_todoist_enabled then [ExtCall.todoist] else []) := by
  by_cases hv : 0 ≤ c ∧ c ≤ 1
  · simp only [create_task_action, mk_action, pydantic_unit_interval, if_pos hv,
      Except.map, Except.ok.injEq] at h
    by_cases hen : s.mcp_todoist_enabled <;> simp only [hen, if_pos, if_neg,
      Bool.false_eq_true, if_false, if_true] at h ⊢ <;> subst h <;>
      exact ⟨rfl, rfl, rfl⟩
  · simp [create_task_action, mk_action, pydantic_unit_interval, hv,
      Except.map] at h

/-- Status, result and external calls of a successful calendar dispatch. -/
theorem create_calendar_action_fields (s : AUBSSettings) (env : RouterEnv)
    (e : Execution) (d : RecData) (c : ℚ) (p : Action × List ExtCall)
    (h : create_calendar_action s env e d c = Except.ok p) :
    p.1.status =
        (if s.mcp_gcal_enabled then ExecutionStatus.completed
          else ExecutionStatus.pending) ∧
    p.1.result =
        (if s.mcp_gcal_enabled then some (call_gcal_mcp env) else none) ∧
    p.2 = (if s.mcp_gcal_enabled then [ExtCall.gcal] else []) := by
  by_cases hv : 0 ≤ c ∧ c ≤ 1
  · simp only [create_calendar_action, mk_action, pydantic_unit_interval,
      if_pos hv, Except.map, Except.ok.injEq] at h
    by_cases hen : s.mcp_gcal_enabled <;> simp only [hen, if_pos, if_neg,
      Bool.false_eq_true, if_false, if_true] at h ⊢ <;> subst h <;>
      exact ⟨rfl, rfl, rfl⟩
  · simp [create_calendar_action, mk_action, pydantic_unit_interval, hv,
      Except.map] at h

/-- Status, result and external calls of a successful notification
dispatch. -/
theorem create_notification_action_fields (s : AUBSSettings) (env : RouterEnv)
    (e : Execution) (d : RecData) (c : ℚ) (p : Action × List ExtCall)
    (h : create_notification_action s env e d c = Except.ok p) :
    p.1.status =
        (if s.mcp_twilio_enabled then ExecutionStatus.completed
          else ExecutionStatus.pending) ∧
    p.1.result =
        (if s.mcp_twilio_enabled then some (call_twilio_mcp env) else none) ∧
    p.2 = (if s.mcp_twilio_enabled then [ExtCall.twilio] else []) := by
  by_cases hv : 0 ≤ c ∧ c ≤ 1
  · simp only [create_notification_action, mk_action, pydantic_unit_interval,
      if_pos hv, Except.map, Except.ok.injEq] at h
    by_cases hen : s.mcp_twilio_enabled <;> simp only [hen, if_pos, if_neg,
      Bool.false_eq_true, if_false, if_true] at h ⊢ <;> subst h <;>
      exact ⟨rfl, rfl, rfl⟩
  · simp [create_notification_action, mk_action, pydantic_unit_interval, hv,
      Except.map] at h

/-- `Except.toOption` inversion. -/
theorem toOption_eq_some {ε α : Type} {x : Except ε α} {a : α}
    (h : x.toOption = some a) : x = Except.ok a := by
  cases x with
  | error msg => simp [Except.toOption] at h
  | ok v => simp only [Except.toOption, Option.some.injEq] at h; rw [h]

/-- A flatten of all-empty lists is empty. -/
theorem flatten_eq_nil_of_all_nil {α : Type} {l : List (List α)}
    (h : ∀ x ∈ l, x = []) : l.flatten = [] := by
  induction l with
  | nil => rfl
  | cons a t ih =>
      rw [List.flatten_cons, h a (List.mem_cons_self a t),
        ih fun x hx => h x (List.mem_cons_of_mem a hx)]
      rfl

/-- Inversion of one recommendation-loop iteration: a contributed pair
comes from exactly one of the three dispatchers. -/
theorem route_recommendation_cases (s : AUBSSettings) (env : RouterEnv)
    (e : Execution) (conf : ℚ) (rec : Recommendation)
    (p : Action × List ExtCall)
    (h : route_recommendation s env e conf rec = some p) :
    create_task_action s env e (rec.data?.getD {})
        (rec.confidence?.getD conf) = Except.ok p ∨
    create_calendar_action s env e (rec.data?.getD {})
        (rec.confidence?.getD conf) = Except.ok p ∨
    create_notification_action s env e (rec.data?.getD {})
        (rec.confidence?.getD conf) = Except.ok p := by
  unfold route_recommendation at h
  dsimp only at h
  split at h
  · exact Or.inl (toOption_eq_some h)
  · exact Or.inr (Or.inl (toOption_eq_some h))
  · exact Or.inr (Or.inr (toOption_eq_some h))
  · cases h

/-! ## C10 -/

/-- C10: with a dispatcher's per-tool enable flag false, the dispatcher
still creates its Action and the action is included in `route`'s result
(the routed count still equals the number of known-typed recommendations),
but the corresponding external tool is never called and the action remains
pending with result `none`. -/
theorem c10_disabled_tool_flags (s : AUBSSettings) (env : RouterEnv)
    (e : Execution) (co : ContextOutputDict)
    (hconf : ¬ co.confidence?.getD 0 < s.confidence_threshold)
    (hkw : detect_high_risk (get_high_risk_keywords s) co = false)
    (hhigh : (co.findings?.getD {}).risk_assessment?.getD "low" ≠ "high")
    (hcrit : (co.findings?.getD {}).risk_assessment?.getD "low" ≠ "critical")
    (hvalid : ∀ rec ∈ (co.findings?.getD {}).recommendations?.getD [],
      0 ≤ rec.confidence?.getD (co.confidence?.getD 0) ∧
        rec.confidence?.getD (co.confidence?.getD 0) ≤ 1) :
    (route s env e co).1.length =
      (((co.findings?.getD {}).recommendations?.getD []).filter
        known_action_type).length ∧
    (s.mcp_todoist_enabled = false →
      (∀ a ∈ (route s env e co).1, a.action_type = ActionType.create_task →
        a.status = ExecutionStatus.pending ∧ a.result = none) ∧
      ExtCall.todoist ∉ (route s env e co).2) ∧
    (s.mcp_gcal_enabled = false →
      (∀ a ∈ (route s env e co).1, a.action_type = ActionType.schedule_event →
        a.status = ExecutionStatus.pending ∧ a.result = none) ∧
      ExtCall.gcal ∉ (route s env e co).2) ∧
    (s.mcp_twilio_enabled = false →
      (∀ a ∈ (route s env e co).1, a.action_type = ActionType.send_notification →
        a.status = ExecutionStatus.pending ∧ a.result = none) ∧
      ExtCall.twilio ∉ (route s env e co).2) := by
  have hN := route_normal s env e co hconf hkw hhigh hcrit
  rw [hN]
  dsimp only
  refine ⟨?_, ?_, ?_, ?_⟩
  · rw [List.length_map]
    exact length_filterMap_eq _ _ _ fun rec hrec =>
      route_recommendation_isSome s env e _ rec (hvalid rec hrec)
  · intro hen
    constructor
    · intro a ha hat
      rw [List.mem_map] at ha
      obtain ⟨p, hp, rfl⟩ := ha
      rw [List.mem_filterMap] at hp
      obtain ⟨rec, _, hsome⟩ := hp
      rcases route_recommendation_cases s env e _ rec p hsome with hc | hc | hc
      · have hf := create_task_action_fields s env e _ _ p hc
        rw [hen] at hf
        exact ⟨by simpa using hf.1, by simpa using hf.2.1⟩
      · have hs := create_calendar_action_shape s env e _ _ p hc
        rw [hat] at hs
        exact absurd hs.1 (by decide)
      · have hs := create_notification_action_shape s env e _ _ p hc
        rw [hat] at hs
        exact absurd hs.1 (by decide)
    · intro hmemc
      rw [List.mem_flatten] at hmemc
      obtain ⟨l, hl, hcl⟩ := hmemc
      rw [List.mem_map] at hl
      obtain ⟨p, hp, rfl⟩ := hl
      rw [List.mem_filterMap] at hp
      obtain ⟨rec, _, hsome⟩ := hp
      rcases route_recommendation_cases s env e _ rec p hsome with hc | hc | hc
      · have hf := (create_task_action_fields s env e _ _ p hc).2.2
        rw [hen] at hf
        rw [show (if false = true then [ExtCall.todoist] else []) = [] from rfl]
          at hf
        rw [hf] at hcl
        cases hcl
      · have hf := (create_calendar_action_fields s env e _ _ p hc).2.2
        rw [hf] at hcl
        by_cases hg : s.mcp_gcal_enabled <;> simp [hg] at hcl
      · have hf := (create_notification_action_fields s env e _ _ p hc).2.2
        rw [hf] at hcl
        by_cases hg : s.mcp_twilio_enabled <;> simp [hg] at hcl
  · intro hen
    constructor
    · intro a ha hat
      rw [List.mem_map] at ha
      obtain ⟨p, hp, rfl⟩ := ha
      rw [List.mem_filterMap] at hp
      obtain ⟨rec, _, hsome⟩ := hp
      rcases route_recommendation_cases s env e _ rec p hsome with hc | hc | hc
      · have hs := create_task_action_shape s env e _ _ p hc
        rw [hat] at hs
        exact absurd hs.1 (by decide)
      · have hf := create_calendar_action_fields s env e _ _ p hc
        rw [hen] at hf
        exact ⟨by simpa using hf.1, by simpa using hf.2.1⟩
      · have hs := create_notification_action_shape s env e _ _ p hc
        rw [hat] at hs
        exact absurd hs.1 (by decide)
    · intro hmemc
      rw [List.mem_flatten] at hmemc
      obtain ⟨l, hl, hcl⟩ := hmemc
      rw [List.mem_map] at hl
      obtain ⟨p, hp, rfl⟩ := hl
      rw [List.mem_filterMap] at hp
      obtain ⟨rec, _, hsome⟩ := hp
      rcases route_recommendation_cases s env e _ rec p hsome with hc | hc | hc
      · have hf := (create_task_action_fields s env e _ _ p hc).2.2
        rw [hf] at hcl
        by_cases hg : s.mcp_todoist_enabled <;> simp [hg] at hcl
      · have hf := (create_calendar_action_fields s env e _ _ p hc).2.2
        rw [hen] at hf
        rw [show (if false = true then [ExtCall.gcal] else []) = [] from rfl]
          at hf
        rw [hf] at hcl
        cases hcl
      · have hf := (create_notification_action_fields s env e _ _ p hc).2.2
        rw [hf] at hcl
        by_cases hg : s.mcp_twilio_enabled <;> simp [hg] at hcl
  · intro hen
    constructor
    · intro a ha hat
      rw [List.mem_map] at ha
      obtain ⟨p, hp, rfl⟩ := ha
      rw [List.mem_filterMap] at hp
      obtain ⟨rec, _, hsome⟩ := hp
      rcases route_recommendation_cases s env e _ rec p hsome with hc | hc | hc
      · have hs := create_task_action_shape s env e _ _ p hc
        rw [hat] at hs
        exact absurd hs.1 (by decide)
      · have hs := create_calendar_action_shape s env e _ _ p hc
        rw [hat] at hs
        exact absurd hs.1 (by decide)
      · have hf := create_notification_action_fields s env e _ _ p hc
        rw [hen] at hf
        exact ⟨by simpa using hf.1, by simpa using hf.2.1⟩
    · intro hmemc
      rw [List.mem_flatten] at hmemc
      obtain ⟨l, hl, hcl⟩ := hmemc
      rw [List.mem_map] at hl
      obtain ⟨p, hp, rfl⟩ := hl
      rw [List.mem_filterMap] at hp
      obtain ⟨rec, _, hsome⟩ := hp
      rcases route_recommendation_cases s env e _ rec p hsome with hc | hc | hc
      · have hf := (create_task_action_fields s env e _ _ p hc).2.2
        rw [hf] at hcl
        by_cases hg : s.mcp_todoist_enabled <;> simp [hg] at hcl
      · have hf := (create_calendar_action_fields s env e _ _ p hc).2.2
        rw [hf] at hcl
        by_cases hg : s.mcp_gcal_enabled <;> simp [hg] at hcl
      · have hf := (create_notification_action_fields s env e _ _ p hc).2.2
        rw [hen] at hf
        rw [show (if false = true then [ExtCall.twilio] else []) = [] from rfl]
          at hf
        rw [hf] at hcl
        cases hcl

/-- C10 (witness). -/
theorem c10_disabled_tool_flags_witness :
    ExtCall.todoist ∉
      (route { mcp_todoist_enabled := false } {} { id := "w10" }
        { confidence? := some 1,
          findings? := some { recommendations? := some [{ action_type? := some "create_task", confidence? := some 1 }] } }).2 :=
  ((c10_disabled_tool_flags { mcp_todoist_enabled := false } {} { id := "w10" }
      { confidence? := some 1,
        findings? := some { recommendations? := some [{ action_type? := some "create_task", confidence? := some 1 }] } }
      (by norm_num) (by decide) (by decide) (by decide)
      (by intro rec hrec; fin_cases hrec; exact ⟨by norm_num, by norm_num⟩)).2.1
    rfl).2

/-! ## C9 -/

/-- C9: a context output dictionary with no "confidence" key is read as
confidence 0.0; since a validated configuration has threshold at least 0.5,
such an output is always routed to exactly one human-review action and
never to recommendation-derived actions. -/
theorem c9_missing_confidence_routes_to_review (s : AUBSSettings)
    (env : RouterEnv) (e : Execution) (co : ContextOutputDict)
    (hs : ValidSettings s) (h : co.confidence? = none) :
    route s env e co =
      ([(create_human_review_action e co "Low confidence").1],
        [ExtCall.review_queue]) ∧
    (route s env e co).1.map Action.action_type = [ActionType.human_review] := by
  have hthr : (1 : ℚ)/2 ≤ s.confidence_threshold := by
    have hv := hs.2.2.1
    unfold validate_confidence at hv
    by_contra hlt
    rw [if_pos (not_le.mp hlt)] at hv
    exact Except.noConfusion hv
  have h0 : co.confidence?.getD 0 = 0 := by rw [h]; rfl
  have hlt : co.confidence?.getD 0 < s.confidence_threshold := by
    rw [h0]
    exact lt_of_lt_of_le (by norm_num) hthr
  have hr := route_low_confidence s env e co hlt
  exact ⟨hr, by rw [hr]; rfl⟩

/-- C9 (witness). -/
theorem c9_missing_confidence_witness :
    (route {} {} { id := "w9" } {}).1.map Action.action_type
      = [ActionType.human_review] :=
  (c9_missing_confidence_routes_to_review {} {} { id := "w9" } {}
    (by constructor <;> norm_num [validate_confidence]) rfl).2

/-! ## C3 -/

/-- C3 (counterexample): with the default configuration (global retry
budget 3), the context (synthesis) task of a built DAG carries
`config.max_retries = 3`, not 0 — the claim's "retries=0, regardless of the
globally configured retry budget" does not hold. -/
theorem c3_retries_counterexample :
    ((build {} { id := "m3" } { id := "e3" }).tasks.filter
        (fun t => t.task_id == "context_agent")).map TaskNode.max_retries
      = [3] ∧ (3 : Nat) ≠ 0 := by
  constructor
  · rfl
  · decide

/-- C3 (amended): the context (synthesis) node of every built graph is
`critical=true` with `on_failure="fail"` and `no_fallback=true` (fallback
disallowed), but its retry budget is the configured `max_retries` — the
same as every other node's — and since a validated configuration has
`max_retries ≥ 1`, it is never 0; all other nodes are `critical=false`
with `on_failure="retry"` and retries equal to the configured budget. -/
theorem c3_critical_context_node (s : AUBSSettings) (email : EmailData)
    (e : Execution) :
    (∀ t ∈ (build s email e).tasks,
      (t.task_id = "context_agent" →
        t.critical = true ∧ t.on_failure = "fail" ∧ t.no_fallback = true ∧
        t.max_retries = s.max_retries) ∧
      (t.task_id ≠ "context_agent" →
        t.critical = false ∧ t.on_failure = "retry" ∧ t.no_fallback = false ∧
        t.max_retries = s.max_retries)) ∧
    (ValidSettings s → 1 ≤ ((get_agent_configs s).context).max_retries) := by
  constructor
  · intro t ht
    have hcases : t = build_triage_task s ∨ t = build_vision_task s ∨
        t = build_deadline_task s ∨ t = build_task_categorizer_task s ∨
        t = build_context_task s true ∨ t = build_context_task s false := by
      by_cases hatt : 0 < email.attachments.length <;>
        simp only [build, hatt, if_true, if_false, decide_True, decide_False,
          List.append_nil, List.nil_append, List.cons_append, List.mem_cons,
          List.not_mem_nil, or_false] at ht <;> tauto
    rcases hcases with rfl | rfl | rfl | rfl | rfl | rfl
    · exact ⟨fun h => absurd h (by simp [build_triage_task]),
        fun _ => ⟨rfl, rfl, rfl, rfl⟩⟩
    · exact ⟨fun h => absurd h (by simp [build_vision_task]),
        fun _ => ⟨rfl, rfl, rfl, rfl⟩⟩
    · exact ⟨fun h => absurd h (by simp [build_deadline_task]),
        fun _ => ⟨rfl, rfl, rfl, rfl⟩⟩
    · exact ⟨fun h => absurd h (by simp [build_task_categorizer_task]),
        fun _ => ⟨rfl, rfl, rfl, rfl⟩⟩
    · exact ⟨fun _ => ⟨rfl, rfl, rfl, rfl⟩, fun h => absurd rfl h⟩
    · exact ⟨fun _ => ⟨rfl, rfl, rfl, rfl⟩, fun h => absurd rfl h⟩
  · intro hv
    exact hv.2.2.2.1

/-- C3 (witness). -/
theorem c3_critical_context_node_witness :
    1 ≤ ((get_agent_configs {}).context).max_retries :=
  (c3_critical_context_node {} {} {}).2
    (by refine ⟨by norm_num, by norm_num, ?_, by norm_num, by norm_num,
          by norm_num, by norm_num⟩
        rw [validate_confidence, if_neg (by norm_num)])

/-! ## C4 -/

/-- C4: without attachments the built graph has no vision node and the
synthesis (context) node depends on exactly 3 nodes; with attachments the
vision node is present and the dependency set has exactly 4 members; in
both cases the context node's dependency list is a permutation of the ids
of the non-context nodes present. -/
theorem c4_dependency_sets (s : AUBSSettings) (email : EmailData)
    (e : Execution) :
    ∃ ctx, context_task_of (build s email e) = some ctx ∧
      (email.attachments = [] →
        (∀ t ∈ (build s email e).tasks, t.task_id ≠ "vision_agent") ∧
        ctx.depends_on.length = 3) ∧
      (email.attachments ≠ [] →
        (∃ t ∈ (build s email e).tasks, t.task_id = "vision_agent") ∧
        ctx.depends_on.length = 4) ∧
      List.Perm ctx.depends_on
        (((build s email e).tasks.filter
            (fun t => t.task_id != "context_agent")).map TaskNode.task_id) := by
  cases hA : email.attachments with
  | nil =>
      have hb : (build s email e).tasks =
          [build_triage_task s, build_deadline_task s,
            build_task_categorizer_task s, build_context_task s false] := by
        simp [build, hA]
      refine ⟨build_context_task s false, ?_, fun _ => ⟨?_, rfl⟩,
        fun hne => absurd rfl hne, ?_⟩
      · rw [context_task_of, hb]
        simp [List.find?, build_triage_task, build_deadline_task,
          build_task_categorizer_task, build_context_task]
      · intro t ht
        rw [hb] at ht
        fin_cases ht <;> simp [build_triage_task, build_deadline_task,
          build_task_categorizer_task, build_context_task]
      · rw [hb]
        simp [List.filter, build_triage_task, build_deadline_task,
          build_task_categorizer_task, build_context_task]
  | cons a as =>
      have hatt : 0 < email.attachments.length := by rw [hA]; simp
      have hb : (build s email e).tasks =
          [build_triage_task s, build_vision_task s, build_deadline_task s,
            build_task_categorizer_task s, build_context_task s true] := by
        simp [build, hA]
      refine ⟨build_context_task s true, ?_, fun hnil => absurd hnil (by simp),
        fun _ => ⟨⟨build_vision_task s, ?_, rfl⟩, rfl⟩, ?_⟩
      · rw [context_task_of, hb]
        simp [List.find?, build_triage_task, build_vision_task,
          build_deadline_task, build_task_categorizer_task, build_context_task]
      · rw [hb]
        simp
      · rw [hb]
        simp [List.filter, build_triage_task, build_vision_task,
          build_deadline_task, build_task_categorizer_task, build_context_task]
        decide

/-- C4 (witness). -/
theorem c4_dependency_sets_witness :
    ((context_task_of (build {} {} {})).map fun t => t.depends_on.length)
      = some 3 := by
  obtain ⟨ctx, h1, h2, _, _⟩ := c4_dependency_sets {} {} {}
  rw [h1]
  simp [(h2 rfl).2]

/-! ## Monitor lemmas -/

/-- If no in-budget poll reports a terminal status, the monitoring loop
ends in the timeout branch: execution failed with "Execution timeout", no
router invocation. -/
theorem monitor_loop_timeout (s : AUBSSettings) (renv : RouterEnv)
    (e : Execution) (polls : Nat → PollOutcome) (ex : ExecState) :
    ∀ fuel i, fuel + i = s.execution_timeout / 5 + 1 →
      (∀ j, j * 5 ≤ s.execution_timeout → terminal_report (polls j) = false) →
      monitor_loop s renv e polls ex i fuel =
        { exec := monitor_timeout_state ex, router_invoked := false,
          trace := [ExecutionStatus.failed] } := by
  intro fuel
  induction fuel with
  | zero => intro i _ _; rfl
  | succ f ih =>
      intro i hfi hp
      have hi : i * 5 ≤ s.execution_timeout := by
        have h1 : i ≤ s.execution_timeout / 5 := by omega
        calc i * 5 ≤ (s.execution_timeout / 5) * 5 :=
              Nat.mul_le_mul_right 5 h1
          _ ≤ s.execution_timeout := Nat.div_mul_le_self _ 5
      have hterm := hp i hi
      cases hpoll : polls i with
      | failure =>
          rw [show monitor_loop s renv e polls ex i (f + 1) =
              monitor_loop s renv e polls ex (i + 1) f from by
            rw [monitor_loop, hpoll]]
          exact ih (i + 1) (by omega) hp
      | response sd =>
          rw [hpoll] at hterm
          simp only [terminal_report, Bool.or_eq_false_iff, beq_eq_false_iff_ne,
            ne_eq] at hterm
          rw [show monitor_loop s renv e polls ex i (f + 1) =
              monitor_loop s renv e polls ex (i + 1) f from by
            rw [monitor_loop, hpoll]
            dsimp only
            rw [if_neg hterm.1, if_neg hterm.2]]
          exact ih (i + 1) (by omega) hp

/-- The monitoring loop writes exactly one terminal status. -/
theorem monitor_loop_trace (s : AUBSSettings) (renv : RouterEnv)
    (e : Execution) (polls : Nat → PollOutcome) (ex : ExecState) :
    ∀ fuel i,
      (monitor_loop s renv e polls ex i fuel).trace = [ExecutionStatus.failed] ∨
      (monitor_loop s renv e polls ex i fuel).trace =
        [ExecutionStatus.completed] := by
  intro fuel
  induction fuel with
  | zero => intro i; left; rfl
  | succ f ih =>
      intro i
      cases hpoll : polls i with
      | failure =>
          rw [show monitor_loop s renv e polls ex i (f + 1) =
              monitor_loop s renv e polls ex (i + 1) f from by
            rw [monitor_loop, hpoll]]
          exact ih (i + 1)
      | response sd =>
          by_cases h1 : sd.status? = some "completed"
          · right
            rw [monitor_loop, hpoll]
            dsimp only
            rw [if_pos h1]
          · by_cases h2 : sd.status? = some "failed"
            · left
              rw [monitor_loop, hpoll]
              dsimp only
              rw [if_neg h1, if_pos h2]
            · rw [show monitor_loop s renv e polls ex i (f + 1) =
                  monitor_loop s renv e polls ex (i + 1) f from by
                rw [monitor_loop, hpoll]
                dsimp only
                rw [if_neg h1, if_neg h2]]
              exact ih (i + 1)

/-! ## C5 -/

/-- C5: if the external engine never reports a terminal status within the
configured execution timeout, the monitor force-fails the execution with
error "Execution timeout" (which contains "timeout"), stops, and never
invokes the Decision Router for that execution. -/
theorem c5_monitor_timeout_no_router (s : AUBSSettings) (renv : RouterEnv)
    (e : Execution) (polls : Nat → PollOutcome) (ex : ExecState)
    (hp : ∀ j, j * 5 ≤ s.execution_timeout → terminal_report (polls j) = false) :
    (monitor_execution s renv e polls ex).exec.status = ExecutionStatus.failed ∧
    (monitor_execution s renv e polls ex).exec.error_message =
      some "Execution timeout" ∧
    ("Execution timeout".data.tails.any fun t =>
      "timeout".data.isPrefixOf t) = true ∧
    (monitor_execution s renv e polls ex).router_invoked = false := by
  have h := monitor_loop_timeout s renv e polls ex
    (s.execution_timeout / 5 + 1) 0 (by omega) hp
  rw [monitor_execution, h]
  exact ⟨rfl, rfl, by decide, rfl⟩

/-- C5 (witness): an engine forever reporting "running". -/
theorem c5_monitor_timeout_witness :
    (monitor_execution {} {} { id := "w5" }
        (fun _ => PollOutcome.response { status? := some "running" })
        { status := ExecutionStatus.running }).exec.status
      = ExecutionStatus.failed ∧
    (monitor_execution {} {} { id := "w5" }
        (fun _ => PollOutcome.response { status? := some "running" })
        { status := ExecutionStatus.running }).router_invoked = false := by
  have h := c5_monitor_timeout_no_router {} {} { id := "w5" }
    (fun _ => PollOutcome.response { status? := some "running" })
    { status := ExecutionStatus.running } (fun j _ => rfl)
  exact ⟨h.1, h.2.2.2⟩

/-! ## C7 -/

/-- The full lifetime status trace of a `process_email` run is exactly one
of three lists: failure before monitoring, failure during monitoring
(remote failure or timeout), or completion. -/
theorem process_email_trace_cases (s : AUBSSettings) (oenv : OrchEnv)
    (email : EmailData) :
    (process_email s oenv email).trace =
        [ExecutionStatus.pending, ExecutionStatus.failed] ∨
    (process_email s oenv email).trace =
        [ExecutionStatus.pending, ExecutionStatus.running,
          ExecutionStatus.failed] ∨
    (process_email s oenv email).trace =
        [ExecutionStatus.pending, ExecutionStatus.running,
          ExecutionStatus.completed] := by
  unfold process_email
  cases hbe : oenv.build_error? with
  | some msg => simp [hbe]
  | none =>
      cases hsr : oenv.submit_result with
      | error msg => simp [hbe, hsr]
      | ok did =>
          simp only [hbe, hsr]
          have hgen : ∀ t : List ExecutionStatus,
              t = [ExecutionStatus.failed] ∨ t = [ExecutionStatus.completed] →
              (([ExecutionStatus.pending, ExecutionStatus.running] ++ t) =
                  [ExecutionStatus.pending, ExecutionStatus.failed] ∨
                ([ExecutionStatus.pending, ExecutionStatus.running] ++ t) =
                  [ExecutionStatus.pending, ExecutionStatus.running,
                    ExecutionStatus.failed] ∨
                ([ExecutionStatus.pending, ExecutionStatus.running] ++ t) =
                  [ExecutionStatus.pending, ExecutionStatus.running,
                    ExecutionStatus.completed]) := by
            rintro t (rfl | rfl)
            · right; left; rfl
            · right; right; rfl
          exact hgen _ (monitor_loop_trace s oenv.router _ oenv.polls _
            (s.execution_timeout / 5 + 1) 0)

/-- C7: over the lifetime of an execution — creation in `process_email`,
the monitoring loop, and `_process_completion` — the sequence of status
values written is non-decreasing under
`pending < running < {completed, failed, cancelled}`, and a terminal
status is never overwritten: at most one terminal status is ever written,
because the full trace is exactly `[pending, failed]` (build or submission
failure), `[pending, running, failed]` (remote failure or timeout) or
`[pending, running, completed]`. -/
theorem c7_status_monotonic (s : AUBSSettings) (oenv : OrchEnv)
    (email : EmailData) :
    List.Chain' statusLE (process_email s oenv email).trace ∧
    ((process_email s oenv email).trace.countP
        fun st => statusRank st == 2) ≤ 1 ∧
    ((process_email s oenv email).trace =
        [ExecutionStatus.pending, ExecutionStatus.failed] ∨
      (process_email s oenv email).trace =
        [ExecutionStatus.pending, ExecutionStatus.running,
          ExecutionStatus.failed] ∨
      (process_email s oenv email).trace =
        [ExecutionStatus.pending, ExecutionStatus.running,
          ExecutionStatus.completed]) := by
  rcases process_email_trace_cases s oenv email with ht | ht | ht <;>
    rw [ht] <;>
    exact ⟨by simp [List.chain'_cons, List.chain'_singleton, statusLE,
        statusRank], by decide, by simp⟩

/-! ## C8 -/

/-- C8 (counterexample): the context (synthesis) stage does not clamp: a
raw confidence of 1.5 makes the `ContextOutput` construction fail pydantic
validation (a rejection), instead of being mapped to the nearer bound 1. -/
theorem c8_context_not_clamped_counterexample :
    context_process_confidence { confidence? := some (3/2) } =
      Except.error "confidence out of range" ∧
    context_process_confidence { confidence? := some (3/2) } ≠
      Except.ok 1 := by
  have h1 : context_process_confidence { confidence? := some (3/2) } =
      Except.error "confidence out of range" := by
    unfold context_process_confidence context_agent_confidence
      pydantic_unit_interval
    rw [if_neg (by norm_num)]
  exact ⟨h1, by rw [h1]; simp⟩

/-- C8 (amended): the confidence of a normalized triage stage output is
always present and clamped into [0,1] (an out-of-range numeric raw value is
mapped to the nearer bound); the context stage instead passes the raw value
(defaulted to 0.8 when missing) to the output model's validator, which
rejects an out-of-range value rather than clamping it. -/
theorem c8_confidence_normalization :
    (∀ r : TriageRawResult, 0 ≤ (normalize_findings r).confidence ∧
      (normalize_findings r).confidence ≤ 1) ∧
    (∀ q : ℚ, (normalize_findings { confidence := RawConfidence.num q }).confidence
      = max 0 (min 1 q)) ∧
    (∀ d : ContextData,
      (0 ≤ context_agent_confidence d ∧ context_agent_confidence d ≤ 1) →
      context_process_confidence d = Except.ok (context_agent_confidence d)) ∧
    (∀ d : ContextData,
      ¬ (0 ≤ context_agent_confidence d ∧ context_agent_confidence d ≤ 1) →
      context_process_confidence d = Except.error "confidence out of range") := by
  refine ⟨fun r => ?_, fun q => rfl, fun d h => ?_, fun d h => ?_⟩
  · unfold normalize_findings
    dsimp only
    rcases r.confidence with _ | _ | q
    · constructor <;> norm_num
    · constructor <;> norm_num
    · exact ⟨le_max_left 0 (min 1 q),
        max_le (by norm_num) (min_le_left 1 q)⟩
  · unfold context_process_confidence pydantic_unit_interval
    rw [if_pos h]
  · unfold context_process_confidence pydantic_unit_interval
    rw [if_neg h]

/-- C8 (witness): the triage stage clamps 1.5 to 1; the context stage
rejects 1.5. -/
theorem c8_confidence_normalization_witness :
    (normalize_findings { confidence := RawConfidence.num (3/2) }).confidence
        = 1 ∧
    context_process_confidence { confidence? := some (3/2) } =
      Except.error "confidence out of range" := by
  have h := c8_confidence_normalization
  constructor
  · rw [h.2.1 (3/2)]
    norm_num
  · exact h.2.2.2 { confidence? := some (3/2) }
      (by norm_num [context_agent_confidence])

end OhhhMail
